import Mathlib

/-!
# reCAPTCHA middleware (`application/recaptcha_middleware.go`)

A shallow embedding of the Go middleware that gates requests behind a
reCAPTCHA challenge and remembers a passed challenge in a sealed cookie.

Go values returned as `(value, error)` are pairs `α × Option GoError`, where
`none` is the `nil` error.  The libraries the file imports are not part of the
repository: the cookie codec (`securecookie.SecureCookie`) and the challenge
verifier (`recaptcha.Recaptcha.Verify`) are parameters, and the few functions
of `net` and `net/http` the file calls are written out below.  A handler is
embedded by state passing: it takes the response writer and the request and
returns the writer together with the calls it made to its collaborators.
-/

namespace Application

/-! ## Values of the Go runtime and standard library -/

/-- Go `error` values that the middleware can hold. -/
inductive GoError where
  | ErrNoCookie
  | AddrError (why : String) (addr : String)
  | CookieError (msg : String)
  deriving DecidableEq, Repr

/-- Go `time.Time`, as nanoseconds counted from the zero `Time`. -/
abbrev Time := Int

/-- Go `time.Hour`, a `time.Duration` in nanoseconds. -/
def Hour : Int := 3600000000000

/-- The fields of `http.Cookie` that the middleware sets. -/
structure Cookie where
  Name : String
  Value : String
  Path : String
  HttpOnly : Bool
  Expires : Time
  deriving DecidableEq, Repr

/-- The zero value `http.Cookie{}`. -/
def Cookie.zero : Cookie :=
  { Name := "", Value := "", Path := "", HttpOnly := false, Expires := 0 }

/-- The parts of `*http.Request` that the middleware reads: the peer address,
the value of `r.UserAgent()`, the cookies the request carries, in header
order, the query parameters of `r.URL.Query()`, and the values of
`r.Context()`, the newest first. -/
structure Request where
  RemoteAddr : String
  UserAgent : String
  Cookies : List Cookie
  Query : List (String × String)
  Context : List (String × Cookie)
  deriving DecidableEq, Repr

/-- Go `(*http.Request).Cookie`: the first cookie of that name, `ErrNoCookie`
when there is none or the name is empty. -/
def Request.Cookie (r : Request) (name : String) : Option Cookie × Option GoError :=
  if name = "" then (none, some GoError.ErrNoCookie)
  else
    match r.Cookies.find? (fun c => c.Name == name) with
    | some c => (some c, none)
    | none => (none, some GoError.ErrNoCookie)

/-- Go `url.Values.Get`: the first value of the key, the empty string when the
key is absent. -/
def queryGet (q : List (String × String)) (key : String) : String :=
  match q.find? (fun kv => kv.1 == key) with
  | some kv => kv.2
  | none => ""

/-- Go `(*http.Request).WithContext` over `context.WithValue`: the request
with one more context value. -/
def Request.WithValue (r : Request) (key : String) (val : Application.Cookie) : Request :=
  { r with Context := (key, val) :: r.Context }

/-- The observable state of an `http.ResponseWriter`: the header map and the
status code once `WriteHeader` has been called. -/
structure ResponseWriter where
  Header : List (String × String)
  Status : Option Nat
  deriving DecidableEq, Repr

/-- Go `ResponseWriter.WriteHeader`: the first call fixes the status. -/
def ResponseWriter.WriteHeader (w : ResponseWriter) (code : Nat) : ResponseWriter :=
  match w.Status with
  | some _ => w
  | none => { w with Status := some code }

/-- Position of the first `c` in `s`, Go `IndexByteString` (`none` for -1). -/
def indexByte (s : List Char) (c : Char) : Option Nat :=
  match s with
  | [] => none
  | x :: xs => if x = c then some 0 else (indexByte xs c).map (· + 1)

/-- Position of the last `c` in `s`, Go `LastIndexByteString` (`none` for -1). -/
def lastIndexByte (s : List Char) (c : Char) : Option Nat :=
  match s with
  | [] => none
  | x :: xs =>
    match lastIndexByte xs c with
    | some i => some (i + 1)
    | none => if x = c then some 0 else none

/-- Go `net.SplitHostPort` on the characters of the address: host, port and
error.  Every error return carries empty host and port. -/
def splitHostPort (hostport : List Char) : List Char × List Char × Option GoError :=
  let addrErr (why : String) : List Char × List Char × Option GoError :=
    ([], [], some (GoError.AddrError why (String.mk hostport)))
  match lastIndexByte hostport ':' with
  | none => addrErr "missing port in address"
  | some i =>
    if hostport.head? = some '[' then
      match indexByte hostport ']' with
      | none => addrErr "missing ']' in address"
      | some stop =>
        if stop + 1 = hostport.length then addrErr "missing port in address"
        else if stop + 1 = i then
          let host := (hostport.take stop).drop 1
          if (indexByte (hostport.drop 1) '[').isSome then
            addrErr "unexpected '[' in address"
          else if (indexByte (hostport.drop (stop + 1)) ']').isSome then
            addrErr "unexpected ']' in address"
          else (host, hostport.drop (i + 1), none)
        else if (hostport.drop (stop + 1)).head? = some ':' then
          addrErr "too many colons in address"
        else addrErr "missing port in address"
    else
      let host := hostport.take i
      if (indexByte host ':').isSome then addrErr "too many colons in address"
      else if (indexByte hostport '[').isSome then addrErr "unexpected '[' in address"
      else if (indexByte hostport ']').isSome then addrErr "unexpected ']' in address"
      else (host, hostport.drop (i + 1), none)

/-- Go `net.SplitHostPort` on strings. -/
def SplitHostPort (hostport : String) : String × String × Option GoError :=
  let res := splitHostPort hostport.data
  (String.mk res.1, String.mk res.2.1, res.2.2)

/-! ## Collaborators outside the repository -/

/-- The two operations of `securecookie.SecureCookie` that the middleware
calls.  `Encode name value` returns the sealed text and an error.
`Decode name value dst` receives the current content of the destination
variable and returns its content after the call, and an error. -/
structure SecureCookie where
  Encode : String → String → String × Option GoError
  Decode : String → String → String → String × Option GoError

/-- Contract of the codec: what `Encode` sealed without error under a name,
`Decode` opens under the same name to the sealed value, whatever the
destination held. -/
def SecureCookie.RoundTrips (sc : SecureCookie) : Prop :=
  ∀ name value dst, (sc.Encode name value).2 = none →
    sc.Decode name (sc.Encode name value).1 dst = (value, none)

/-- Contract of the codec: a `Decode` that fails leaves the destination as it
was. -/
def SecureCookie.KeepsDstOnError (sc : SecureCookie) : Prop :=
  ∀ name value dst, (sc.Decode name value dst).2 ≠ none →
    (sc.Decode name value dst).1 = dst

/-- The answer of the challenge verifier, `recaptcha.RecaptchaResponse`. -/
structure RecaptchaResponse where
  Success : Bool
  deriving DecidableEq, Repr

/-- The call `recaptcha.Recaptcha{PrivateKey: key}.Verify(challenge, remoteAddr)`,
its error dropped as the middleware drops it. -/
abbrev Verifier := String → String → String → RecaptchaResponse

/-! ## The middleware -/

/-- The `Recaptcha` section of the configuration. -/
structure RecaptchaConfig where
  PrivateKey : String
  deriving DecidableEq, Repr

/-- The `RecaptchaCookie` section of the configuration. -/
structure RecaptchaCookieConfig where
  Name : String
  deriving DecidableEq, Repr

/-- The part of `Configuration` that the middleware reads. -/
structure Configuration where
  Recaptcha : RecaptchaConfig
  RecaptchaCookie : RecaptchaCookieConfig
  deriving DecidableEq, Repr

/-- Go `RecaptchaMiddleware`. -/
structure RecaptchaMiddleware where
  Configuration : Configuration
  SecureCookie : SecureCookie

/-- Go `GenerateCookie`, with the reading of the clock `time.Now()` as the
argument `now`. -/
def GenerateCookie (recaptcha : RecaptchaMiddleware) (now : Time) (value : String) :
    Cookie × Option GoError :=
  let cookie := Cookie.zero
  let res := recaptcha.SecureCookie.Encode recaptcha.Configuration.RecaptchaCookie.Name value
  let encoded := res.1
  let err := res.2
  if err ≠ none then (cookie, err)
  else
    let cookie := { cookie with Name := recaptcha.Configuration.RecaptchaCookie.Name }
    let cookie := { cookie with Value := encoded }
    let cookie := { cookie with Path := "/" }
    let cookie := { cookie with HttpOnly := true }
    let cookie := { cookie with Expires := now + 24 * Hour }
    (cookie, err)

/-- Go `ReadCookie`. -/
def ReadCookie (m : RecaptchaMiddleware) (r : Request) : String × Option GoError :=
  let decodedValue := ""
  match r.Cookie m.Configuration.RecaptchaCookie.Name with
  | (some cookie, none) =>
    let res := m.SecureCookie.Decode m.Configuration.RecaptchaCookie.Name cookie.Value
      decodedValue
    let decodedValue := res.1
    let err := res.2
    if err ≠ none then (decodedValue, err)
    else (decodedValue, none)
  | (_, err) => (decodedValue, err)

/-- Go `ValidateRecaptchaCookie`: both errors are dropped. -/
def ValidateRecaptchaCookie (m : RecaptchaMiddleware) (r : Request) : Bool :=
  let decoded := (ReadCookie m r).1
  let ipAddress := (SplitHostPort r.RemoteAddr).1
  decoded == (ipAddress ++ r.UserAgent)

/-- What one run of the handler did: the response writer afterwards, the
`(challenge, remoteAddr)` pairs passed to the verifier, the values passed to
`GenerateCookie`, and the `(writer, request)` pairs passed to
`next.ServeHTTP`, each in call order. -/
structure Served where
  Writer : ResponseWriter
  VerifyCalls : List (String × String)
  GenerateCalls : List String
  NextCalls : List (ResponseWriter × Request)
  deriving DecidableEq, Repr

/-- Go `Middleware(next)`: the handler it returns, run on `w` and `r`.  The
verifier and the clock are arguments; the call of `next` is recorded. -/
def Middleware (middle : RecaptchaMiddleware) (verify : Verifier) (now : Time)
    (w : ResponseWriter) (r : Request) : Served :=
  let tail (calls : List (String × String)) : Served :=
    let ipAddress := (SplitHostPort r.RemoteAddr).1
    let secureRecaptchaCookie := (GenerateCookie middle now (ipAddress ++ r.UserAgent)).1
    let ctx := r.WithValue "recaptcha" secureRecaptchaCookie
    { Writer := w, VerifyCalls := calls, GenerateCalls := [ipAddress ++ r.UserAgent],
      NextCalls := [(w, ctx)] }
  if ValidateRecaptchaCookie middle r == false then
    let challenge := queryGet r.Query "c"
    let recaptchaResponse :=
      verify middle.Configuration.Recaptcha.PrivateKey challenge r.RemoteAddr
    if recaptchaResponse.Success == false then
      { Writer := w.WriteHeader 403, VerifyCalls := [(challenge, r.RemoteAddr)],
        GenerateCalls := [], NextCalls := [] }
    else tail [(challenge, r.RemoteAddr)]
  else tail []

/-! ## A small codec for concrete runs -/

/-- Removes the prefix `p` from `s` when `s` starts with it. -/
def stripLeading (p s : List Char) : Option (List Char) :=
  match p, s with
  | [], s => some s
  | _ :: _, [] => none
  | a :: p, b :: s => if a = b then stripLeading p s else none

/-- A codec that seals a value as `name|value` and opens only text that starts
with `name|`. -/
def tagCodec : SecureCookie where
  Encode name value := (String.mk (name.data ++ '|' :: value.data), none)
  Decode name value dst :=
    match stripLeading (name.data ++ ['|']) value.data with
    | some rest => (String.mk rest, none)
    | none => (dst, some (GoError.CookieError "securecookie: the value is not valid"))

/-- A middleware over `tagCodec` with the cookie name `reCAPTCHA`. -/
def tagMiddleware : RecaptchaMiddleware where
  Configuration := { Recaptcha := { PrivateKey := "secret" },
                     RecaptchaCookie := { Name := "reCAPTCHA" } }
  SecureCookie := tagCodec

/-- A verifier that accepts every challenge. -/
def acceptAll : Verifier := fun _ _ _ => { Success := true }

/-- A verifier that rejects every challenge. -/
def rejectAll : Verifier := fun _ _ _ => { Success := false }

/-- A fresh response writer. -/
def freshWriter : ResponseWriter := { Header := [], Status := none }

/-- A request from `203.0.113.5:54321` with the agent `TestAgent/1.0` that
carries the cookie `tagMiddleware` seals over its fingerprint. -/
def sealedRequest : Request :=
  { RemoteAddr := "203.0.113.5:54321", UserAgent := "TestAgent/1.0",
    Cookies := [{ Name := "lang", Value := "en", Path := "", HttpOnly := false, Expires := 0 },
      (GenerateCookie tagMiddleware 0 "203.0.113.5TestAgent/1.0").1],
    Query := [], Context := [] }

/-- The request of `sealedRequest` sent again with another agent. -/
def otherAgentRequest : Request :=
  { sealedRequest with UserAgent := "OtherAgent/2.0" }

/-- A request with no cookie from `203.0.113.5:54321` that answers the
challenge in the query parameter `c`. -/
def challengeRequest : Request :=
  { RemoteAddr := "203.0.113.5:54321", UserAgent := "TestAgent/1.0", Cookies := [],
    Query := [("c", "token")], Context := [] }

/-- A request with no cookie from the IPv6 peer `[::1]:8080`. -/
def loopbackRequest : Request :=
  { RemoteAddr := "[::1]:8080", UserAgent := "TestAgent/1.0", Cookies := [],
    Query := [("c", "token")], Context := [] }

/-- A request with no cookie, no `User-Agent` header and the peer address `@`
of a Unix-domain socket, which has no port. -/
def socketRequest : Request :=
  { RemoteAddr := "@", UserAgent := "", Cookies := [], Query := [], Context := [] }

/-- A request with no cookie, no `User-Agent` header and an empty peer
address, as `http.NewRequest` builds it, with a challenge answer. -/
def bareRequest : Request :=
  { RemoteAddr := "", UserAgent := "", Cookies := [], Query := [("c", "wrong")],
    Context := [] }

/-- A request that carries a cookie named `reCAPTCHA`. -/
def cookieRequest : Request :=
  { RemoteAddr := "203.0.113.5:54321", UserAgent := "TestAgent/1.0",
    Cookies := [{ Name := "reCAPTCHA", Value := "1", Path := "", HttpOnly := false,
                  Expires := 0 }],
    Query := [], Context := [] }

/-! ## Facts about the library functions -/

theorem indexByte_eq_none {s : List Char} {c : Char} (h : c ∉ s) : indexByte s c = none := by
  induction s with
  | nil => rfl
  | cons x xs ih =>
    have hx : x ≠ c := fun e => h (e ▸ List.mem_cons_self x xs)
    have hxs : c ∉ xs := fun e => h (List.mem_cons_of_mem x e)
    simp [indexByte, hx, ih hxs]

theorem lastIndexByte_eq_none {s : List Char} {c : Char} (h : c ∉ s) :
    lastIndexByte s c = none := by
  induction s with
  | nil => rfl
  | cons x xs ih =>
    have hx : x ≠ c := fun e => h (e ▸ List.mem_cons_self x xs)
    have hxs : c ∉ xs := fun e => h (List.mem_cons_of_mem x e)
    simp [lastIndexByte, hx, ih hxs]

theorem lastIndexByte_append_cons (h p : List Char) (c : Char) (hp : c ∉ p) :
    lastIndexByte (h ++ c :: p) c = some h.length := by
  induction h with
  | nil => simp [lastIndexByte, lastIndexByte_eq_none hp]
  | cons x xs ih => simp [lastIndexByte, ih]

theorem head?_append_colon (h p : List Char) (hb : '[' ∉ h) :
    (h ++ ':' :: p).head? ≠ some '[' := by
  cases h with
  | nil => simp
  | cons x xs =>
    have hx : x ≠ '[' := fun e => hb (e ▸ List.mem_cons_self x xs)
    simpa using hx

/-- On `host:port` with no colon or bracket in either part, `splitHostPort`
returns the two parts and no error. -/
theorem splitHostPort_host_port (h p : List Char)
    (hc : ':' ∉ h) (hl : '[' ∉ h) (hr : ']' ∉ h)
    (pc : ':' ∉ p) (pl : '[' ∉ p) (pr : ']' ∉ p) :
    splitHostPort (h ++ ':' :: p) = (h, p, none) := by
  have hl2 : '[' ∉ h ++ ':' :: p := by simp [hl, pl]
  have hr2 : ']' ∉ h ++ ':' :: p := by simp [hr, pr]
  have htake : List.take h.length (h ++ ':' :: p) = h := by simp
  have hdrop : List.drop (h.length + 1) (h ++ ':' :: p) = p := by
    rw [List.drop_append_eq_append_drop]
    simp
  simp only [splitHostPort, lastIndexByte_append_cons h p ':' pc,
    if_neg (head?_append_colon h p hl), htake, hdrop, indexByte_eq_none hc,
    indexByte_eq_none hl2, indexByte_eq_none hr2]
  simp

/-- The string form of `splitHostPort_host_port`. -/
theorem SplitHostPort_host_port (host port : String)
    (hc : ':' ∉ host.data) (hl : '[' ∉ host.data) (hr : ']' ∉ host.data)
    (pc : ':' ∉ port.data) (pl : '[' ∉ port.data) (pr : ']' ∉ port.data) :
    SplitHostPort (host ++ ":" ++ port) = (host, port, none) := by
  have hdata : (host ++ ":" ++ port).data = host.data ++ ':' :: port.data := by
    simp [String.data_append]
  simp [SplitHostPort, hdata, splitHostPort_host_port _ _ hc hl hr pc pl pr]

theorem indexByte_some {s : List Char} {c : Char} {k : Nat} (h : indexByte s c = some k) :
    ∃ hk : k < s.length, s[k] = c := by
  induction s generalizing k with
  | nil => simp [indexByte] at h
  | cons x xs ih =>
    unfold indexByte at h
    by_cases hx : x = c
    · simp only [hx, if_true, Option.some.injEq] at h
      subst h
      exact ⟨by simp, by simpa using hx⟩
    · simp only [hx, if_false, Option.map_eq_some'] at h
      obtain ⟨j, hj, rfl⟩ := h
      obtain ⟨hjl, hjc⟩ := ih hj
      exact ⟨by simpa using hjl, by simpa using hjc⟩

theorem lastIndexByte_some {s : List Char} {c : Char} {k : Nat}
    (h : lastIndexByte s c = some k) : ∃ hk : k < s.length, s[k] = c := by
  induction s generalizing k with
  | nil => simp [lastIndexByte] at h
  | cons x xs ih =>
    unfold lastIndexByte at h
    cases hl : lastIndexByte xs c with
    | some j =>
      simp only [hl, Option.some.injEq] at h
      subst h
      obtain ⟨hjl, hjc⟩ := ih hl
      exact ⟨by simpa using hjl, by simpa using hjc⟩
    | none =>
      simp only [hl] at h
      by_cases hx : x = c
      · simp only [hx, if_true, Option.some.injEq] at h
        subst h
        exact ⟨by simp, by simpa using hx⟩
      · simp [hx] at h

/-- An address that `splitHostPort` accepts is `host:port` or `[host]:port`
for the host and port it returns. -/
theorem splitHostPort_accepts (hp h p : List Char) (hs : splitHostPort hp = (h, p, none)) :
    hp = h ++ ':' :: p ∨ hp = '[' :: h ++ ']' :: ':' :: p := by
  unfold splitHostPort at hs
  cases hi : lastIndexByte hp ':' with
  | none => simp [hi] at hs
  | some i =>
    obtain ⟨hil, hic⟩ := lastIndexByte_some hi
    have hdropi : hp.drop i = ':' :: hp.drop (i + 1) := by
      rw [List.drop_eq_getElem_cons hil, hic]
    simp only [hi] at hs
    by_cases hb : hp.head? = some '['
    · simp only [hb, if_true] at hs
      cases hst : indexByte hp ']' with
      | none => simp [hst] at hs
      | some stop =>
        obtain ⟨hsl, hsc⟩ := indexByte_some hst
        simp only [hst] at hs
        split at hs
        · simp at hs
        · split at hs
          · rename_i hne heq
            split at hs
            · simp at hs
            · split at hs
              · simp at hs
              · simp only [Prod.mk.injEq, and_true] at hs
                obtain ⟨hh, hpp⟩ := hs
                right
                have hdrops : hp.drop stop = ']' :: hp.drop (stop + 1) := by
                  rw [List.drop_eq_getElem_cons hsl, hsc]
                have hstop : stop ≠ 0 := by
                  intro h0
                  subst h0
                  cases hp with
                  | nil => simp at hsl
                  | cons x xs =>
                    simp only [List.head?_cons, Option.some.injEq] at hb
                    simp only [List.getElem_cons_zero] at hsc
                    rw [hb] at hsc
                    exact absurd hsc (by decide)
                have htake : hp.take stop = '[' :: (hp.take stop).drop 1 := by
                  cases hp with
                  | nil => simp at hsl
                  | cons x xs =>
                    simp only [List.head?_cons, Option.some.injEq] at hb
                    obtain ⟨n, rfl⟩ := Nat.exists_eq_succ_of_ne_zero hstop
                    simp [hb]
                calc hp = hp.take stop ++ hp.drop stop := (List.take_append_drop stop hp).symm
                  _ = hp.take stop ++ ']' :: hp.drop (stop + 1) := by rw [hdrops]
                  _ = hp.take stop ++ ']' :: ':' :: hp.drop (i + 1) := by rw [heq, hdropi]
                  _ = '[' :: h ++ ']' :: ':' :: p := by rw [htake, hh, hpp]
          · split at hs <;> simp at hs
    · simp only [hb, if_false] at hs
      split at hs
      · simp at hs
      · split at hs
        · simp at hs
        · split at hs
          · simp at hs
          · simp only [Prod.mk.injEq, and_true] at hs
            obtain ⟨hh, hpp⟩ := hs
            left
            calc hp = hp.take i ++ hp.drop i := (List.take_append_drop i hp).symm
              _ = hp.take i ++ ':' :: hp.drop (i + 1) := by rw [hdropi]
              _ = h ++ ':' :: p := by rw [hh, hpp]

/-- The string form of `splitHostPort_accepts`. -/
theorem SplitHostPort_accepts (addr host port : String)
    (hs : SplitHostPort addr = (host, port, none)) :
    addr = host ++ ":" ++ port ∨ addr = "[" ++ host ++ "]:" ++ port := by
  simp only [SplitHostPort, Prod.mk.injEq] at hs
  obtain ⟨hh, hpp, he⟩ := hs
  have hlist : splitHostPort addr.data = (host.data, port.data, none) := by
    rw [← hh, ← hpp, ← he]
  rcases splitHostPort_accepts _ _ _ hlist with h1 | h1
  · left
    apply String.ext
    simp [String.data_append, h1]
  · right
    apply String.ext
    simp [String.data_append, h1]

theorem string_append_left_cancel_iff (a b c : String) : a ++ b = a ++ c ↔ b = c := by
  constructor
  · intro h
    have h2 := congrArg String.data h
    simp only [String.data_append] at h2
    exact String.ext (List.append_cancel_left h2)
  · intro h; rw [h]

theorem stripLeading_append (p s : List Char) : stripLeading p (p ++ s) = some s := by
  induction p with
  | nil => cases s <;> rfl
  | cons a p ih => simp [stripLeading, ih]

theorem tagCodec_roundTrips : tagCodec.RoundTrips := by
  intro name value dst _
  have h : stripLeading (name.data ++ ['|']) (name.data ++ '|' :: value.data)
      = some value.data := by
    have := stripLeading_append (name.data ++ ['|']) value.data
    simpa using this
  simp [tagCodec, h]

theorem tagCodec_keepsDstOnError : tagCodec.KeepsDstOnError := by
  intro name value dst herr
  simp only [tagCodec] at herr ⊢
  cases hs : stripLeading (name.data ++ ['|']) value.data with
  | none => simp
  | some rest => simp [hs] at herr

/-! ## Facts about the middleware -/

theorem GenerateCookie_ok (m : RecaptchaMiddleware) (now : Time) (value : String)
    (h : (GenerateCookie m now value).2 = none) :
    (m.SecureCookie.Encode m.Configuration.RecaptchaCookie.Name value).2 = none ∧
    (GenerateCookie m now value).1 =
      { Name := m.Configuration.RecaptchaCookie.Name,
        Value := (m.SecureCookie.Encode m.Configuration.RecaptchaCookie.Name value).1,
        Path := "/", HttpOnly := true, Expires := now + 24 * Hour } := by
  unfold GenerateCookie at h ⊢
  by_cases he : (m.SecureCookie.Encode m.Configuration.RecaptchaCookie.Name value).2 = none
  · simp [he, Cookie.zero]
  · simp [he] at h

theorem ReadCookie_of_carried (m : RecaptchaMiddleware) (r : Request) (c : Cookie)
    (hcarry : r.Cookie m.Configuration.RecaptchaCookie.Name = (some c, none)) :
    ReadCookie m r =
      if (m.SecureCookie.Decode m.Configuration.RecaptchaCookie.Name c.Value "").2 ≠ none
      then m.SecureCookie.Decode m.Configuration.RecaptchaCookie.Name c.Value ""
      else ((m.SecureCookie.Decode m.Configuration.RecaptchaCookie.Name c.Value "").1, none) := by
  simp only [ReadCookie, hcarry]

theorem Request.Cookie_absent (r : Request) (name : String)
    (h : ∀ c ∈ r.Cookies, c.Name ≠ name) :
    r.Cookie name = (none, some GoError.ErrNoCookie) := by
  unfold Request.Cookie
  split
  · rfl
  · have hf : r.Cookies.find? (fun c => c.Name == name) = none := by
      rw [List.find?_eq_none]
      intro c hc
      simpa using h c hc
    rw [hf]

theorem ReadCookie_absent (m : RecaptchaMiddleware) (r : Request)
    (h : ∀ c ∈ r.Cookies, c.Name ≠ m.Configuration.RecaptchaCookie.Name) :
    ReadCookie m r = ("", some GoError.ErrNoCookie) := by
  simp only [ReadCookie, Request.Cookie_absent r _ h]

/-- What `ReadCookie` returns on a request that carries a cookie sealed by
`GenerateCookie` under a codec that round-trips. -/
theorem ReadCookie_sealed (m : RecaptchaMiddleware) (now : Time) (f : String)
    (r : Request) (c : Cookie)
    (hcodec : m.SecureCookie.RoundTrips)
    (hgen : (GenerateCookie m now f).2 = none)
    (hcarry : r.Cookie m.Configuration.RecaptchaCookie.Name = (some c, none))
    (hval : c.Value = (GenerateCookie m now f).1.Value) :
    ReadCookie m r = (f, none) := by
  obtain ⟨henc, hck⟩ := GenerateCookie_ok m now f hgen
  rw [hck] at hval
  simp only at hval
  rw [ReadCookie_of_carried m r c hcarry, hval, hcodec _ f "" henc]
  simp

/-- `SplitHostPort` on a plain address, a bracketed IPv6 address, an address
with no port and an address with two colons. -/
theorem SplitHostPort_samples :
    SplitHostPort "203.0.113.5:54321" = ("203.0.113.5", "54321", none) ∧
    SplitHostPort "[::1]:8080" = ("::1", "8080", none) ∧
    SplitHostPort "@" = ("", "", some (GoError.AddrError "missing port in address" "@")) ∧
    SplitHostPort "a:b:c"
      = ("", "", some (GoError.AddrError "too many colons in address" "a:b:c")) := by
  decide

/-! ## The claims -/

/-- C1. Round trip of the cookie codec: when `GenerateCookie` seals the
fingerprint `f` without error, under a codec that opens what it sealed, a
request that carries a cookie of the configured name with the Value of the
returned cookie makes `ReadCookie` return exactly `f` and a nil error. -/
theorem ReadCookie_GenerateCookie_roundtrip (m : RecaptchaMiddleware) (now : Time)
    (f : String) (r : Request) (c : Cookie)
    (hcodec : m.SecureCookie.RoundTrips)
    (hgen : (GenerateCookie m now f).2 = none)
    (hcarry : r.Cookie m.Configuration.RecaptchaCookie.Name = (some c, none))
    (hval : c.Value = (GenerateCookie m now f).1.Value) :
    ReadCookie m r = (f, none) :=
  ReadCookie_sealed m now f r c hcodec hgen hcarry hval

/-- Witness of C1 at the fingerprint `203.0.113.5TestAgent/1.0`. -/
theorem ReadCookie_GenerateCookie_roundtrip_witness :
    (GenerateCookie tagMiddleware 0 "203.0.113.5TestAgent/1.0").2 = none ∧
    ReadCookie tagMiddleware sealedRequest = ("203.0.113.5TestAgent/1.0", none) :=
  ⟨by decide,
   ReadCookie_GenerateCookie_roundtrip tagMiddleware 0 "203.0.113.5TestAgent/1.0"
     sealedRequest (GenerateCookie tagMiddleware 0 "203.0.113.5TestAgent/1.0").1
     tagCodec_roundTrips (by decide) (by decide) rfl⟩

/-- C3. A request whose cookie of the configured name was sealed by
`GenerateCookie` over the request's own fingerprint (host part of RemoteAddr
followed by the User-Agent) is handed to the next handler exactly once, with
no call of the verifier and no status written, whatever the verifier is. -/
theorem Middleware_sealed_cookie_passes (m : RecaptchaMiddleware) (verify : Verifier)
    (issued now : Time) (w : ResponseWriter) (r : Request) (c : Cookie)
    (hcodec : m.SecureCookie.RoundTrips)
    (hgen : (GenerateCookie m issued ((SplitHostPort r.RemoteAddr).1 ++ r.UserAgent)).2 = none)
    (hcarry : r.Cookie m.Configuration.RecaptchaCookie.Name = (some c, none))
    (hval : c.Value =
      (GenerateCookie m issued ((SplitHostPort r.RemoteAddr).1 ++ r.UserAgent)).1.Value) :
    (Middleware m verify now w r).NextCalls.length = 1 ∧
    (Middleware m verify now w r).VerifyCalls = [] ∧
    (Middleware m verify now w r).Writer = w := by
  have hread := ReadCookie_sealed m issued _ r c hcodec hgen hcarry hval
  have hvalid : ValidateRecaptchaCookie m r = true := by
    simp [ValidateRecaptchaCookie, hread]
  simp [Middleware, hvalid]

/-- Witness of C3: the sealed request under a verifier that rejects. -/
theorem Middleware_sealed_cookie_passes_witness :
    (Middleware tagMiddleware rejectAll 5 freshWriter sealedRequest).NextCalls.length = 1 ∧
    (Middleware tagMiddleware rejectAll 5 freshWriter sealedRequest).VerifyCalls = [] ∧
    (Middleware tagMiddleware rejectAll 5 freshWriter sealedRequest).Writer = freshWriter :=
  Middleware_sealed_cookie_passes tagMiddleware rejectAll 0 5 freshWriter sealedRequest
    (GenerateCookie tagMiddleware 0 "203.0.113.5TestAgent/1.0").1
    tagCodec_roundTrips (by decide) (by decide) (by decide)

/-- C8. A request from the peer address `a` with the agent `u2` that carries
a cookie sealed over the fingerprint of `(a, u1)`, with `u1 ≠ u2`: `ReadCookie`
returns that fingerprint and a nil error, and `ValidateRecaptchaCookie`
returns false. -/
theorem Validate_false_on_agent_change (m : RecaptchaMiddleware) (issued : Time)
    (a u1 u2 : String) (r : Request) (c : Cookie)
    (hne : u1 ≠ u2) (haddr : r.RemoteAddr = a) (hagent : r.UserAgent = u2)
    (hcodec : m.SecureCookie.RoundTrips)
    (hgen : (GenerateCookie m issued ((SplitHostPort a).1 ++ u1)).2 = none)
    (hcarry : r.Cookie m.Configuration.RecaptchaCookie.Name = (some c, none))
    (hval : c.Value = (GenerateCookie m issued ((SplitHostPort a).1 ++ u1)).1.Value) :
    ReadCookie m r = ((SplitHostPort a).1 ++ u1, none) ∧
    ValidateRecaptchaCookie m r = false := by
  have hread := ReadCookie_sealed m issued _ r c hcodec hgen hcarry hval
  refine ⟨hread, ?_⟩
  simp [ValidateRecaptchaCookie, hread, haddr, hagent, string_append_left_cancel_iff, hne]

/-- Witness of C8: the sealed cookie of `TestAgent/1.0` sent by
`OtherAgent/2.0`. -/
theorem Validate_false_on_agent_change_witness :
    ReadCookie tagMiddleware otherAgentRequest = ("203.0.113.5TestAgent/1.0", none) ∧
    ValidateRecaptchaCookie tagMiddleware otherAgentRequest = false :=
  Validate_false_on_agent_change tagMiddleware 0 "203.0.113.5:54321" "TestAgent/1.0"
    "OtherAgent/2.0" otherAgentRequest
    (GenerateCookie tagMiddleware 0 "203.0.113.5TestAgent/1.0").1
    (by decide) rfl rfl tagCodec_roundTrips (by decide) (by decide) (by decide)

/-- C9. Fingerprint derivation: on every request whose RemoteAddr
`SplitHostPort` accepts, returning `host` and `port`, the address is
`host:port` (or `[host]:port`, the bracketed form of an IPv6 peer) and the
fingerprint is `host`, the port stripped, immediately followed by the
User-Agent with no delimiter.  `ValidateRecaptchaCookie` compares the decoded
cookie with that string, and `Middleware` seals the same string: either it
rejects and seals nothing, or it calls `GenerateCookie` once on that string
and hands the next handler the request whose context holds, under the key
`recaptcha`, the cookie `GenerateCookie` returned for it, whose Value is the
codec's `Encode` of that string under the configured name whenever `Encode`
succeeds. -/
theorem fingerprint_host_agent (m : RecaptchaMiddleware) (verify : Verifier) (now : Time)
    (w : ResponseWriter) (r : Request) (host port : String)
    (haddr : SplitHostPort r.RemoteAddr = (host, port, none)) :
    (r.RemoteAddr = host ++ ":" ++ port ∨ r.RemoteAddr = "[" ++ host ++ "]:" ++ port) ∧
    ValidateRecaptchaCookie m r = ((ReadCookie m r).1 == host ++ r.UserAgent) ∧
    (((Middleware m verify now w r).GenerateCalls = [] ∧
        (Middleware m verify now w r).NextCalls = []) ∨
      ((Middleware m verify now w r).GenerateCalls = [host ++ r.UserAgent] ∧
        (Middleware m verify now w r).NextCalls =
          [(w, r.WithValue "recaptcha" (GenerateCookie m now (host ++ r.UserAgent)).1)])) ∧
    ((m.SecureCookie.Encode m.Configuration.RecaptchaCookie.Name
        (host ++ r.UserAgent)).2 = none →
      (GenerateCookie m now (host ++ r.UserAgent)).1.Value =
        (m.SecureCookie.Encode m.Configuration.RecaptchaCookie.Name
          (host ++ r.UserAgent)).1) := by
  have hsplit : (SplitHostPort r.RemoteAddr).1 = host := by rw [haddr]
  refine ⟨SplitHostPort_accepts _ _ _ haddr,
    by simp only [ValidateRecaptchaCookie, hsplit], ?_, ?_⟩
  · simp only [Middleware, hsplit]
    split
    · split
      · left; exact ⟨rfl, rfl⟩
      · right; exact ⟨rfl, rfl⟩
    · right; exact ⟨rfl, rfl⟩
  · intro henc
    simp [GenerateCookie, henc]

/-- Witness of C9: RemoteAddr `203.0.113.5:54321` and User-Agent
`TestAgent/1.0` give the fingerprint `203.0.113.5TestAgent/1.0`, which the
handler seals into the cookie it hands on; the IPv6 peer `[::1]:8080` gives
`::1TestAgent/1.0`. -/
theorem fingerprint_host_agent_witness :
    (SplitHostPort challengeRequest.RemoteAddr = ("203.0.113.5", "54321", none) ∧
      ValidateRecaptchaCookie tagMiddleware challengeRequest =
        ((ReadCookie tagMiddleware challengeRequest).1 == "203.0.113.5TestAgent/1.0") ∧
      (Middleware tagMiddleware acceptAll 0 freshWriter challengeRequest).GenerateCalls
        = ["203.0.113.5TestAgent/1.0"] ∧
      (Middleware tagMiddleware acceptAll 0 freshWriter challengeRequest).NextCalls
        = [(freshWriter, challengeRequest.WithValue "recaptcha"
            { Name := "reCAPTCHA", Value := "reCAPTCHA|203.0.113.5TestAgent/1.0",
              Path := "/", HttpOnly := true, Expires := 0 + 24 * Hour })]) ∧
    (SplitHostPort loopbackRequest.RemoteAddr = ("::1", "8080", none) ∧
      ValidateRecaptchaCookie tagMiddleware loopbackRequest =
        ((ReadCookie tagMiddleware loopbackRequest).1 == "::1TestAgent/1.0") ∧
      (Middleware tagMiddleware acceptAll 0 freshWriter loopbackRequest).GenerateCalls
        = ["::1TestAgent/1.0"]) :=
  ⟨⟨by decide,
    (fingerprint_host_agent tagMiddleware acceptAll 0 freshWriter challengeRequest
      "203.0.113.5" "54321" (by decide)).2.1,
    by decide, by decide⟩,
   ⟨by decide,
    (fingerprint_host_agent tagMiddleware acceptAll 0 freshWriter loopbackRequest
      "::1" "8080" (by decide)).2.1,
    by decide⟩⟩

/-- C6. Under a codec whose failing `Decode` leaves its destination as it was:
whenever `ReadCookie` returns a non-nil error the string it returns is empty;
and it returns a non-nil error when the request has no cookie of the
configured name, and when the codec fails to decode the value of the cookie
the request carries. -/
theorem ReadCookie_error_empty (m : RecaptchaMiddleware) (r : Request)
    (hkeep : m.SecureCookie.KeepsDstOnError) :
    ((ReadCookie m r).2 ≠ none → (ReadCookie m r).1 = "") ∧
    ((∀ c ∈ r.Cookies, c.Name ≠ m.Configuration.RecaptchaCookie.Name) →
      (ReadCookie m r).2 ≠ none) ∧
    (∀ c, r.Cookie m.Configuration.RecaptchaCookie.Name = (some c, none) →
      (m.SecureCookie.Decode m.Configuration.RecaptchaCookie.Name c.Value "").2 ≠ none →
      (ReadCookie m r).2 ≠ none) := by
  refine ⟨?_, ?_, ?_⟩
  · intro herr
    unfold ReadCookie at herr ⊢
    split at herr
    · rename_i cookie hcookie
      by_cases hd :
          (m.SecureCookie.Decode m.Configuration.RecaptchaCookie.Name cookie.Value "").2 = none
      · simp [hd] at herr
      · simpa [hd] using hkeep _ _ _ hd
    · rfl
  · intro habsent
    simp [ReadCookie_absent m r habsent]
  · intro c hcarry hd
    rw [ReadCookie_of_carried m r c hcarry]
    simp [hd]

/-- Witness of C6: `tagMiddleware` on a request whose cookie it cannot open. -/
theorem ReadCookie_error_empty_witness :
    ReadCookie tagMiddleware cookieRequest =
      ("", some (GoError.CookieError "securecookie: the value is not valid")) ∧
    ((ReadCookie tagMiddleware cookieRequest).2 ≠ none →
      (ReadCookie tagMiddleware cookieRequest).1 = "") :=
  ⟨by decide, (ReadCookie_error_empty tagMiddleware cookieRequest tagCodec_keepsDstOnError).1⟩

/-- C4, as the code has it: on a request with no cookie of the configured
name whose challenge the verifier accepts, when sealing the fingerprint
succeeds, the handler calls `GenerateCookie` once on the request's own
fingerprint, puts the minted cookie (configured name, sealed value, path `/`,
http-only, expiry 24 hours after the clock reading) in the request context
under the key `recaptcha`, and calls the next handler once with that request
and the response writer as it received it: no header and no status is
written. -/
theorem Middleware_accepted_mints (m : RecaptchaMiddleware) (verify : Verifier) (now : Time)
    (w : ResponseWriter) (r : Request)
    (_habsent : ∀ c ∈ r.Cookies, c.Name ≠ m.Configuration.RecaptchaCookie.Name)
    (hok : (verify m.Configuration.Recaptcha.PrivateKey (queryGet r.Query "c")
      r.RemoteAddr).Success = true)
    (hgen : (GenerateCookie m now ((SplitHostPort r.RemoteAddr).1 ++ r.UserAgent)).2 = none) :
    (Middleware m verify now w r).GenerateCalls
      = [(SplitHostPort r.RemoteAddr).1 ++ r.UserAgent] ∧
    (Middleware m verify now w r).NextCalls
      = [(w, r.WithValue "recaptcha"
          { Name := m.Configuration.RecaptchaCookie.Name,
            Value := (m.SecureCookie.Encode m.Configuration.RecaptchaCookie.Name
              ((SplitHostPort r.RemoteAddr).1 ++ r.UserAgent)).1,
            Path := "/", HttpOnly := true, Expires := now + 24 * Hour })] ∧
    (Middleware m verify now w r).Writer = w := by
  obtain ⟨_, hck⟩ := GenerateCookie_ok m now _ hgen
  simp only [Middleware, hok, hck]
  split <;> simp

/-- Witness of C4 as amended: the challenge request under a verifier that
accepts. -/
theorem Middleware_accepted_mints_witness :
    (Middleware tagMiddleware acceptAll 7 freshWriter challengeRequest).GenerateCalls
      = ["203.0.113.5TestAgent/1.0"] ∧
    (Middleware tagMiddleware acceptAll 7 freshWriter challengeRequest).NextCalls
      = [(freshWriter, challengeRequest.WithValue "recaptcha"
          { Name := "reCAPTCHA", Value := "reCAPTCHA|203.0.113.5TestAgent/1.0",
            Path := "/", HttpOnly := true, Expires := 7 + 24 * Hour })] ∧
    (Middleware tagMiddleware acceptAll 7 freshWriter challengeRequest).Writer = freshWriter :=
  Middleware_accepted_mints tagMiddleware acceptAll 7 freshWriter challengeRequest
    (by decide) rfl (by decide)

/-- C4 fails as stated: on the challenge request under a verifier that
accepts, the next handler is called with a response that has no header, and
the response has none afterwards either: no cookie was attached to it. -/
theorem Middleware_attaches_no_cookie :
    challengeRequest.Cookies = [] ∧
    (acceptAll "secret" "token" "203.0.113.5:54321").Success = true ∧
    ((Middleware tagMiddleware acceptAll 7 freshWriter challengeRequest).NextCalls.map
      (fun call => call.1.Header)) = [[]] ∧
    (Middleware tagMiddleware acceptAll 7 freshWriter challengeRequest).Writer.Header = [] := by
  decide

/-- C5 at its failing input: the request `socketRequest` has no cookie,
`ReadCookie` returns `ErrNoCookie`, and `ValidateRecaptchaCookie` returns
true. -/
theorem Validate_true_without_cookie :
    socketRequest.Cookies = [] ∧
    ReadCookie tagMiddleware socketRequest = ("", some GoError.ErrNoCookie) ∧
    ValidateRecaptchaCookie tagMiddleware socketRequest = true := by
  decide

/-- C2 at its failing input: the request `bareRequest` has no cookie and the
verifier rejects every challenge, yet the handler asks no verifier, writes no
status, mints a cookie and calls the next handler. -/
theorem Middleware_passes_without_cookie :
    bareRequest.Cookies = [] ∧
    (rejectAll "secret" "wrong" "").Success = false ∧
    (Middleware tagMiddleware rejectAll 0 freshWriter bareRequest).VerifyCalls = [] ∧
    (Middleware tagMiddleware rejectAll 0 freshWriter bareRequest).Writer.Status = none ∧
    (Middleware tagMiddleware rejectAll 0 freshWriter bareRequest).GenerateCalls = [""] ∧
    (Middleware tagMiddleware rejectAll 0 freshWriter bareRequest).NextCalls.length = 1 := by
  decide

/-! ## The gate away from the empty fingerprint -/

/-- When `ReadCookie` fails under a codec that keeps its destination on
failure, `ValidateRecaptchaCookie` returns false as soon as the fingerprint of
the request is not empty. -/
theorem Validate_false_of_error (m : RecaptchaMiddleware) (r : Request)
    (hkeep : m.SecureCookie.KeepsDstOnError)
    (herr : (ReadCookie m r).2 ≠ none)
    (hfp : (SplitHostPort r.RemoteAddr).1 ++ r.UserAgent ≠ "") :
    ValidateRecaptchaCookie m r = false := by
  have hempty : (ReadCookie m r).1 = "" := by
    unfold ReadCookie at herr ⊢
    split at herr
    · rename_i cookie hcookie
      by_cases hd :
          (m.SecureCookie.Decode m.Configuration.RecaptchaCookie.Name cookie.Value "").2 = none
      · simp [hd] at herr
      · simpa [hd] using hkeep _ _ _ hd
    · rfl
  simp only [ValidateRecaptchaCookie, hempty]
  simpa using fun h => hfp h.symm

/-- When the request has no cookie of the configured name, its fingerprint is
not empty and the verifier rejects the challenge, the handler writes 403 on a
fresh response, calls the verifier once, mints nothing and never calls the
next handler. -/
theorem Middleware_rejects (m : RecaptchaMiddleware) (verify : Verifier) (now : Time)
    (r : Request)
    (habsent : ∀ c ∈ r.Cookies, c.Name ≠ m.Configuration.RecaptchaCookie.Name)
    (hfp : (SplitHostPort r.RemoteAddr).1 ++ r.UserAgent ≠ "")
    (hfail : (verify m.Configuration.Recaptcha.PrivateKey (queryGet r.Query "c")
      r.RemoteAddr).Success = false) :
    Middleware m verify now freshWriter r =
      { Writer := { Header := [], Status := some 403 },
        VerifyCalls := [(queryGet r.Query "c", r.RemoteAddr)],
        GenerateCalls := [], NextCalls := [] } := by
  have hvalid : ValidateRecaptchaCookie m r = false := by
    simp only [ValidateRecaptchaCookie, ReadCookie_absent m r habsent]
    simpa using fun h => hfp h.symm
  simp [Middleware, hvalid, hfail, ResponseWriter.WriteHeader, freshWriter]

end Application
